import Mathlib

/-!
Shallow embedding of the return-request (RMA) and store-credit core of the
ai-invoice-app-backend repository.

Sources embedded:
- `src/models/StoreCredit.js` (schema, `isExpired`, `isAvailable`, `applyCredit`,
  `void`, issuance shape used by the issue-credit route)
- `src/models/RMA.js` (schema, the totalValue pre-save hook, transition methods)
- `src/controllers/invoiceController.js` (the RMA router: create with compliance
  enrichment, reject, resolve, update, destroy, POS apply-credit)

Monetary and weight amounts are modelled as `ℤ` (integer cents / milligrams;
no embedded operation divides, so integers represent every value the
scenarios use exactly); timestamps (`new Date()` /
`Date.now()`) are passed explicitly as `Nat` parameters.  Fallible handlers
return `Except`; an error value carries the data of the corresponding JS
`throw` / 4xx response.  Database lookups (`findOne`) are modelled by passing
the found document as an `Option` parameter.
-/

/-- JS `a || b` for an optional string: `undefined` and `""` are falsy. -/
def jsOr (o : Option String) (d : String) : String :=
  match o with
  | some s => if s = "" then d else s
  | none => d

/-- JS truthiness test `!x` for an optional string (`undefined`/`""` falsy). -/
def truthyStr : Option String → Bool
  | none => false
  | some s => decide (s ≠ "")

/-- JS truthiness test for an optional number (`undefined`/`0` falsy). -/
def truthyNum : Option ℤ → Bool
  | none => false
  | some q => decide (q ≠ 0)

/-- JS `a || b` for an optional numeric field (`undefined` and `0` are falsy). -/
def jsOrAmount (o : Option ℤ) (d : ℤ) : ℤ :=
  match o with
  | some a => if a = 0 then d else a
  | none => d

/-- `rma[field] = req.body[field]` guarded by `!== undefined` for an optional field. -/
def updOpt (cur new : Option α) : Option α :=
  match new with
  | some v => some v
  | none => cur

/-- Extract the payload of a successful `Except`, with a fallback default. -/
def exOk (e : Except ε α) (d : α) : α :=
  match e with
  | .ok a => a
  | .error _ => d

instance [DecidableEq ε] [DecidableEq α] : DecidableEq (Except ε α) := fun x y =>
  match x, y with
  | .ok a, .ok b =>
    if h : a = b then .isTrue (h ▸ rfl) else .isFalse (fun he => h (Except.ok.inj he))
  | .error a, .error b =>
    if h : a = b then .isTrue (h ▸ rfl) else .isFalse (fun he => h (Except.error.inj he))
  | .ok _, .error _ => .isFalse Except.noConfusion
  | .error _, .ok _ => .isFalse Except.noConfusion

/-! ## Store credit ledger (`src/models/StoreCredit.js`) -/

/-- The `status` enum of the store-credit schema. -/
inductive CreditStatus
  | active
  | partiallyUsed
  | fullyUsed
  | expired
  | voided
deriving DecidableEq, Repr

/-- One entry of the `usageHistory` array. -/
structure UsageRecord where
  transactionId : String
  amountUsed : ℤ
  remainingAfterUse : ℤ
  usedAt : Nat
  usedBy : String
  registerId : Option String
deriving DecidableEq, Repr

/-- The store-credit document (fields the embedded operations touch). -/
structure StoreCredit where
  organizationId : String
  creditMemoNumber : String
  customerName : String
  originalAmount : ℤ
  remainingBalance : ℤ
  status : CreditStatus
  expirationDate : Option Nat
  usageHistory : List UsageRecord
  voidedBy : Option String
  voidedAt : Option Nat
  voidReason : Option String
deriving DecidableEq, Repr

/-- Virtual `isExpired`: no expiration date means never expired. -/
def StoreCredit.isExpired (c : StoreCredit) (now : Nat) : Bool :=
  match c.expirationDate with
  | none => false
  | some d => decide (now > d)

/-- Virtual `isAvailable`. -/
def StoreCredit.isAvailable (c : StoreCredit) (now : Nat) : Bool :=
  (c.status == .active || c.status == .partiallyUsed)
    && decide (c.remainingBalance > 0)
    && !(c.isExpired now)

/-- The errors thrown by the store-credit methods and the POS apply-credit route.
`insufficientBalance a r` stands for the thrown
`Cannot apply $a. Only $r available.`; `notAvailable` for
`Credit is not available for use`; `cannotVoidFullyUsed` for
`Cannot void a fully used credit`; `missingFields`, `creditNotFound` and
`creditNotUsable s` for the 400/404 responses of `POST /api/pos/apply-credit`. -/
inductive CreditError
  | insufficientBalance (amount remaining : ℤ)
  | notAvailable
  | cannotVoidFullyUsed
  | missingFields
  | creditNotFound
  | creditNotUsable (status : CreditStatus)
deriving DecidableEq, Repr

/-- `storeCreditSchema.methods.applyCredit` (StoreCredit.js lines 144-174). -/
def StoreCredit.applyCredit (c : StoreCredit) (amount : ℤ) (transactionId userId : String)
    (registerId : Option String) (now : Nat) : Except CreditError StoreCredit :=
  if amount > c.remainingBalance then
    .error (.insufficientBalance amount c.remainingBalance)
  else if !(c.isAvailable now) then
    .error .notAvailable
  else
    let newBalance := c.remainingBalance - amount
    let newStatus :=
      if newBalance = 0 then CreditStatus.fullyUsed
      else if newBalance < c.originalAmount then CreditStatus.partiallyUsed
      else c.status
    .ok { c with
      remainingBalance := newBalance
      status := newStatus
      usageHistory := c.usageHistory ++
        [⟨transactionId, amount, newBalance, now, userId, registerId⟩] }

/-- `storeCreditSchema.methods.void` (StoreCredit.js lines 177-189). -/
def StoreCredit.void (c : StoreCredit) (userId : String) (reason : String) (now : Nat) :
    Except CreditError StoreCredit :=
  if c.status = .fullyUsed then
    .error .cannotVoidFullyUsed
  else
    .ok { c with
      status := .voided
      voidedBy := some userId
      voidedAt := some now
      voidReason := some reason
      remainingBalance := 0 }

/-- The store-credit document built by `PUT /api/rma/:id/issue-credit`
(invoiceController.js lines 1843-1871): `originalAmount = remainingBalance = amount`,
status `active`, empty usage history. -/
def issueCredit (organizationId creditMemoNumber customerName : String)
    (amount : ℤ) (expirationDate : Option Nat) : StoreCredit :=
  { organizationId := organizationId
    creditMemoNumber := creditMemoNumber
    customerName := customerName
    originalAmount := amount
    remainingBalance := amount
    status := .active
    expirationDate := expirationDate
    usageHistory := []
    voidedBy := none
    voidedAt := none
    voidReason := none }

/-- Request body of `POST /api/pos/apply-credit`. -/
structure ApplyCreditRequest where
  creditMemoNumber : Option String
  amountToApply : Option ℤ
  transactionId : Option String
  registerId : Option String
deriving DecidableEq, Repr

/-- `POST /api/pos/apply-credit` (invoiceController.js lines 1960-2039).
`found` is the result of the `StoreCredit.findOne` lookup. -/
def posApplyCredit (found : Option StoreCredit) (body : ApplyCreditRequest)
    (userId : String) (now : Nat) : Except CreditError StoreCredit :=
  if !(truthyStr body.creditMemoNumber) || !(truthyNum body.amountToApply)
      || !(truthyStr body.transactionId) then
    .error .missingFields
  else
    match found with
    | none => .error .creditNotFound
    | some c =>
      if !(c.isAvailable now) then
        .error (.creditNotUsable c.status)
      else if (body.amountToApply.getD 0) > c.remainingBalance then
        .error (.insufficientBalance (body.amountToApply.getD 0) c.remainingBalance)
      else
        c.applyCredit (body.amountToApply.getD 0) (body.transactionId.getD "")
          userId body.registerId now

/-- Sum of `amountUsed` over a usage history. -/
def usedTotal (h : List UsageRecord) : ℤ :=
  (h.map (·.amountUsed)).sum

/-- The spec's ledger invariant:
`remainingBalance == originalAmount − Σ(usageHistory.amountUsed)`. -/
def CreditInv (c : StoreCredit) : Prop :=
  c.remainingBalance = c.originalAmount - usedTotal c.usageHistory

instance (c : StoreCredit) : Decidable (CreditInv c) := by
  unfold CreditInv; infer_instance

/-- Arguments of one `applyCredit` call. -/
structure ApplyOp where
  amount : ℤ
  transactionId : String
  userId : String
  registerId : Option String
  now : Nat
deriving DecidableEq, Repr

/-- Run a sequence of `applyCredit` calls, stopping at the first failure. -/
def applyMany (c : StoreCredit) : List ApplyOp → Except CreditError StoreCredit
  | [] => .ok c
  | op :: ops =>
    match c.applyCredit op.amount op.transactionId op.userId op.registerId op.now with
    | .error e => .error e
    | .ok c' => applyMany c' ops

/-! ## Return requests (`src/models/RMA.js`, RMA router in
`src/controllers/invoiceController.js`) -/

/-- The `status` enum of the RMA schema. -/
inductive RmaStatus
  | pending_approval
  | approved
  | rejected
  | received
  | inspecting
  | inspected
  | refund_processing
  | replacement_ordered
  | credit_issued
  | resolved
  | closed
  | cancelled
deriving DecidableEq, Repr

/-- A return line item: the `rmaItemSchema` fields plus the compliance and
disposition fields the create-route enrichment and the destroy handler write
onto item objects. -/
structure RmaItem where
  productId : Option String
  productName : String
  sku : Option String
  batchNumber : Option String
  quantity : ℤ
  unitPrice : ℤ
  totalValue : ℤ
  reason : Option String
  condition : Option String
  defectType : Option String
  stateTrackingId : Option String
  category : Option String
  strainType : Option String
  thcContent : Option ℤ
  cbdContent : Option ℤ
  thcMg : Option ℤ
  cbdMg : Option ℤ
  unit : Option String
  weight : Option ℤ
  packagedDate : Option Nat
  harvestDate : Option Nat
  labTestDate : Option Nat
  localPackagedDate : Option String
  localHarvestDate : Option String
  localExpirationDate : Option String
  licensedProducer : Option String
  producerLicense : Option String
  labTested : Option Bool
  labTestResult : Option String
  strainName : Option String
  productDescription : Option String
  dispositionMethod : Option String
  dispositionDate : Option Nat
  dispositionNotes : Option String
deriving DecidableEq, Repr

/-- A line item of the originating sale/invoice, as read by the compliance
enrichment in `POST /api/rma` (invoiceController.js lines 658-747). -/
structure InvoiceItem where
  itemId : String
  productId : Option String
  name : String
  unitPrice : ℤ
  sku : Option String
  batchNumber : Option String
  stateTrackingId : Option String
  category : Option String
  strainType : Option String
  thcContent : Option ℤ
  cbdContent : Option ℤ
  thcMg : Option ℤ
  cbdMg : Option ℤ
  unit : Option String
  weight : Option ℤ
  packagedDate : Option Nat
  harvestDate : Option Nat
  labTestDate : Option Nat
  localPackagedDate : Option String
  localHarvestDate : Option String
  localExpirationDate : Option String
  licensedProducer : Option String
  producerLicense : Option String
  labTested : Option Bool
  labTestResult : Option String
  strainName : Option String
  productDescription : Option String
deriving DecidableEq, Repr

/-- The originating invoice, as far as the enrichment reads it. -/
structure Invoice where
  invoiceNumber : String
  items : List InvoiceItem
deriving DecidableEq, Repr

/-- The return-request document: the RMA schema fields the embedded handlers
touch, plus the destruction/metrc fields the destroy handler assigns on the
document object (they are not declared in the mongoose schema; before a destroy
they are all `none`).  `requiresManualReporting` is included because claim C8
talks about it: no handler ever assigns it on the request. -/
structure RMA where
  organizationId : String
  rmaNumber : String
  rmaType : String
  relatedInvoiceId : Option String
  invoiceNumber : Option String
  customerId : Option String
  customerName : String
  customerEmail : Option String
  customerPhone : Option String
  items : List RmaItem
  totalValue : ℤ
  returnReason : String
  detailedReason : String
  customerComplaint : Option String
  status : RmaStatus
  approvedBy : Option String
  approvedAt : Option Nat
  rejectionReason : Option String
  receivedAt : Option Nat
  receivedBy : Option String
  inspectionDate : Option Nat
  inspectedBy : Option String
  inspectionNotes : Option String
  inspectionResult : String
  resolutionType : String
  resolutionDate : Option Nat
  refundAmount : ℤ
  replacementOrderId : Option String
  creditMemoNumber : Option String
  creditAmount : ℤ
  regulatoryNotificationRequired : Bool
  internalNotes : Option String
  createdBy : String
  lastModifiedBy : Option String
  closedAt : Option Nat
  closedBy : Option String
  destructionMethod : Option String
  destructionLocation : Option String
  destructionWitnessName : Option String
  destructionWitnessTitle : Option String
  destructionNotesApplied : Option String
  destructionCompletedDate : Option Nat
  totalWeightDestroyed : Option ℤ
  totalTHCDestroyed : Option ℤ
  totalCBDDestroyed : Option ℤ
  destructionPhotos : Option (List String)
  wasteManifestNumber : Option String
  metrcReported : Option Bool
  metrcReportDate : Option Nat
  metrcAdjustmentId : Option String
  requiresManualReporting : Option Bool
  refundProcessed : Option Bool
  refundTransactionId : Option String
deriving DecidableEq, Repr

/-- Sum of the line values of a list of items. -/
def itemsTotal (items : List RmaItem) : ℤ :=
  (items.map (·.totalValue)).sum

/-- The totalValue pre-save hook (RMA.js lines 282-288): recompute `totalValue`
only when the item list is non-empty.  (The rmaNumber-generating pre-save hook
only runs for a new document without a number; the embedded handlers receive
the generated number as a parameter.) -/
def preSave (r : RMA) : RMA :=
  if r.items.length > 0 then { r with totalValue := itemsTotal r.items } else r

/-- `rmaSchema.methods.approve` followed by the save hooks. -/
def RMA.approve (r : RMA) (userId : String) (now : Nat) : RMA :=
  preSave { r with status := .approved, approvedBy := some userId, approvedAt := some now }

/-- `rmaSchema.methods.reject` (RMA.js lines 326-332) followed by the save
hooks.  Note: the method has no status guard. -/
def RMA.reject (r : RMA) (userId : String) (reason : String) (now : Nat) : RMA :=
  preSave { r with
    status := .rejected
    approvedBy := some userId
    approvedAt := some now
    rejectionReason := some reason }

/-- `rmaSchema.methods.markReceived` followed by the save hooks. -/
def RMA.markReceived (r : RMA) (userId : String) (now : Nat) : RMA :=
  preSave { r with status := .received, receivedBy := some userId, receivedAt := some now }

/-- `rmaSchema.methods.completeInspection` followed by the save hooks. -/
def RMA.completeInspection (r : RMA) (userId result notes : String) (now : Nat) : RMA :=
  preSave { r with
    status := .inspected
    inspectedBy := some userId
    inspectionDate := some now
    inspectionResult := result
    inspectionNotes := some notes }

/-- `rmaSchema.methods.processRefund` followed by the save hooks. -/
def RMA.processRefund (r : RMA) (amount : ℤ) (now : Nat) : RMA :=
  preSave { r with
    resolutionType := "refund"
    refundAmount := amount
    resolutionDate := some now
    status := .resolved }

/-- `rmaSchema.methods.processReplacement` followed by the save hooks. -/
def RMA.processReplacement (r : RMA) (orderId : Option String) (now : Nat) : RMA :=
  preSave { r with
    resolutionType := "replacement"
    replacementOrderId := orderId
    resolutionDate := some now
    status := .resolved }

/-- `rmaSchema.methods.issueCredit` followed by the save hooks. -/
def RMA.issueCredit (r : RMA) (amount : ℤ) (memo : Option String) (now : Nat) : RMA :=
  preSave { r with
    resolutionType := "store_credit"
    creditAmount := amount
    creditMemoNumber := memo
    resolutionDate := some now
    status := .resolved }

/-- `rmaSchema.methods.close` followed by the save hooks. -/
def RMA.close (r : RMA) (userId : String) (now : Nat) : RMA :=
  preSave { r with status := .closed, closedBy := some userId, closedAt := some now }

/-! ## RMA route handlers (invoiceController.js RMA router; the handlers in
`src/routes/rma.routes.js` for create/reject/resolve/update are identical). -/

/-- The matching test of the compliance enrichment
(`invItem._id.toString() === rmaItem.productId ||
invItem.productId?.toString() === rmaItem.productId`).  When both the invoice
item's `productId` and the return item's `productId` are absent, the optional
chaining makes the second comparison `undefined === undefined`, which is true. -/
def invoiceItemMatches (rmaItem : RmaItem) (invItem : InvoiceItem) : Bool :=
  (some invItem.itemId == rmaItem.productId) || (invItem.productId == rmaItem.productId)

/-- The per-item compliance enrichment of `POST /api/rma`
(invoiceController.js lines 670-739): when a matching invoice line exists,
build a fresh item from the user input plus the invoice line's compliance
data; otherwise return the input item unchanged. -/
def enrichItem (invoice : Invoice) (rmaItem : RmaItem) : RmaItem :=
  match invoice.items.find? (invoiceItemMatches rmaItem) with
  | some invoiceItem =>
    { productId := rmaItem.productId
      productName := if rmaItem.productName = "" then invoiceItem.name else rmaItem.productName
      quantity := rmaItem.quantity
      condition := some (jsOr rmaItem.condition "unopened")
      reason := rmaItem.reason
      defectType := rmaItem.defectType
      unitPrice := invoiceItem.unitPrice
      totalValue := rmaItem.quantity * invoiceItem.unitPrice
      sku := invoiceItem.sku
      batchNumber := invoiceItem.batchNumber
      stateTrackingId := invoiceItem.stateTrackingId
      category := invoiceItem.category
      strainType := invoiceItem.strainType
      thcContent := invoiceItem.thcContent
      cbdContent := invoiceItem.cbdContent
      thcMg := invoiceItem.thcMg
      cbdMg := invoiceItem.cbdMg
      unit := invoiceItem.unit
      weight := invoiceItem.weight
      packagedDate := invoiceItem.packagedDate
      harvestDate := invoiceItem.harvestDate
      labTestDate := invoiceItem.labTestDate
      localPackagedDate := invoiceItem.localPackagedDate
      localHarvestDate := invoiceItem.localHarvestDate
      localExpirationDate := invoiceItem.localExpirationDate
      licensedProducer := invoiceItem.licensedProducer
      producerLicense := invoiceItem.producerLicense
      labTested := invoiceItem.labTested
      labTestResult := invoiceItem.labTestResult
      strainName := invoiceItem.strainName
      productDescription := invoiceItem.productDescription
      dispositionMethod := some "pending"
      dispositionDate := none
      dispositionNotes := none }
  | none => rmaItem

/-- Request body of `POST /api/rma`. -/
structure CreateBody where
  rmaType : Option String
  relatedInvoiceId : Option String
  invoiceNumber : Option String
  customerId : Option String
  customerName : Option String
  customerEmail : Option String
  customerPhone : Option String
  items : Option (List RmaItem)
  returnReason : Option String
  detailedReason : Option String
  customerComplaint : Option String
  regulatoryNotificationRequired : Option Bool
deriving DecidableEq, Repr

/-- `POST /api/rma` (invoiceController.js lines 619-785).  `invoice` is the
result of the `Invoice.findById(relatedInvoiceId)` lookup: `none` covers the
cases "no `relatedInvoiceId` supplied", "invoice not found" and "fetch threw"
(the catch block keeps the original items).  `rmaNumber` is the number the
numbering pre-save hook generates on first save. -/
def createRoute (b : CreateBody) (invoice : Option Invoice)
    (organizationId userId rmaNumber : String) : Except String RMA :=
  if !(truthyStr b.customerName) then
    .error "Customer name is required"
  else if (b.items.getD []).length = 0 then
    .error "At least one item is required"
  else if !(truthyStr b.returnReason) || !(truthyStr b.detailedReason) then
    .error "Return reason is required"
  else
    let enrichedItems :=
      match b.relatedInvoiceId, invoice with
      | some _, some inv => (b.items.getD []).map (enrichItem inv)
      | _, _ => b.items.getD []
    .ok (preSave
      { organizationId := organizationId
        rmaNumber := rmaNumber
        rmaType := jsOr b.rmaType "customer_return"
        relatedInvoiceId := b.relatedInvoiceId
        invoiceNumber := b.invoiceNumber
        customerId := b.customerId
        customerName := b.customerName.getD ""
        customerEmail := b.customerEmail
        customerPhone := b.customerPhone
        items := enrichedItems
        totalValue := 0
        returnReason := b.returnReason.getD ""
        detailedReason := b.detailedReason.getD ""
        customerComplaint := b.customerComplaint
        status := .pending_approval
        approvedBy := none
        approvedAt := none
        rejectionReason := none
        receivedAt := none
        receivedBy := none
        inspectionDate := none
        inspectedBy := none
        inspectionNotes := none
        inspectionResult := "pending"
        resolutionType := "pending"
        resolutionDate := none
        refundAmount := 0
        replacementOrderId := none
        creditMemoNumber := none
        creditAmount := 0
        regulatoryNotificationRequired := b.regulatoryNotificationRequired.getD false
        internalNotes := none
        createdBy := userId
        lastModifiedBy := none
        closedAt := none
        closedBy := none
        destructionMethod := none
        destructionLocation := none
        destructionWitnessName := none
        destructionWitnessTitle := none
        destructionNotesApplied := none
        destructionCompletedDate := none
        totalWeightDestroyed := none
        totalTHCDestroyed := none
        totalCBDDestroyed := none
        destructionPhotos := none
        wasteManifestNumber := none
        metrcReported := none
        metrcReportDate := none
        metrcAdjustmentId := none
        requiresManualReporting := none
        refundProcessed := none
        refundTransactionId := none })

/-- `PUT /api/rma/:id/reject` (invoiceController.js lines 837-876).  After the
non-empty-reason validation and the lookup, the handler calls `rma.reject`
directly — there is no status check. -/
def rejectRoute (found : Option RMA) (rejectionReason : Option String)
    (userId : String) (now : Nat) : Except String RMA :=
  if !(truthyStr rejectionReason) then
    .error "Rejection reason is required"
  else
    match found with
    | none => .error "RMA not found"
    | some rma => .ok (rma.reject userId (rejectionReason.getD "") now)

/-- Request body of `PUT /api/rma/:id/resolve`. -/
structure ResolveBody where
  resolutionType : Option String
  refundAmount : Option ℤ
  replacementOrderId : Option String
  creditAmount : Option ℤ
  creditMemoNumber : Option String
deriving DecidableEq, Repr

/-- `PUT /api/rma/:id/resolve` (invoiceController.js lines 987-1049). -/
def resolveRoute (found : Option RMA) (b : ResolveBody) (now : Nat) : Except String RMA :=
  if !(truthyStr b.resolutionType) then
    .error "Resolution type is required"
  else
    match found with
    | none => .error "RMA not found"
    | some rma =>
      if rma.status ≠ .inspected then
        .error "RMA must be inspected before resolution"
      else
        match b.resolutionType.getD "" with
        | "refund" => .ok (rma.processRefund (jsOrAmount b.refundAmount rma.totalValue) now)
        | "replacement" => .ok (rma.processReplacement b.replacementOrderId now)
        | "store_credit" =>
          .ok (rma.issueCredit (jsOrAmount b.creditAmount rma.totalValue) b.creditMemoNumber now)
        | _ => .error "Invalid resolution type"

/-- Request body of `PUT /api/rma/:id` (only the `allowedFields` are read). -/
structure UpdateBody where
  customerName : Option String
  customerEmail : Option String
  customerPhone : Option String
  items : Option (List RmaItem)
  returnReason : Option String
  detailedReason : Option String
  customerComplaint : Option String
  internalNotes : Option String
deriving DecidableEq, Repr

/-- The `allowedFields.forEach` copy of `PUT /api/rma/:id`: each field present
in the body overwrites the document field. -/
def applyUpdate (r : RMA) (b : UpdateBody) : RMA :=
  { r with
    customerName := b.customerName.getD r.customerName
    customerEmail := updOpt r.customerEmail b.customerEmail
    customerPhone := updOpt r.customerPhone b.customerPhone
    items := b.items.getD r.items
    returnReason := b.returnReason.getD r.returnReason
    detailedReason := b.detailedReason.getD r.detailedReason
    customerComplaint := updOpt r.customerComplaint b.customerComplaint
    internalNotes := updOpt r.internalNotes b.internalNotes }

/-- `PUT /api/rma/:id` (invoiceController.js lines 1148-1202; identical to
rma.routes.js lines 571-625).  `canEdit` blocks only the statuses
`resolved`, `closed` and `rejected`. -/
def updateRoute (found : Option RMA) (b : UpdateBody) (userId : String) : Except String RMA :=
  match found with
  | none => .error "RMA not found"
  | some rma =>
    if rma.status = .resolved ∨ rma.status = .closed ∨ rma.status = .rejected then
      .error "Cannot update RMA after it has been resolved, closed, or rejected"
    else
      .ok (preSave { applyUpdate rma b with lastModifiedBy := some userId })

/-! ## Destruction / metrc reporting (`PUT /api/rma/:id/destroy`,
invoiceController.js lines 1210-1381; metrc service of
`src/services/metrcService.mock.js`). -/

/-- Request body of `PUT /api/rma/:id/destroy`. -/
structure DestroyBody where
  destructionMethod : Option String
  destructionLocation : Option String
  destructionWitnessName : Option String
  destructionWitnessTitle : Option String
  destructionNotes : Option String
  destructionPhotos : Option (List String)
deriving DecidableEq, Repr

/-- One tuple sent to `metrcService.reportBulkWaste`. -/
structure WasteItem where
  packageUid : String
  quantity : ℤ
  unit : String
  weight : ℤ
  destructionDate : Nat
  wasteReason : String
  destructionMethod : String
deriving DecidableEq, Repr

/-- Outcome of the remote `metrcService.reportBulkWaste` call: either a
successful report or a thrown error (service unreachable etc.). -/
inductive MetrcOutcome
  | success (adjustmentIds : List String) (reportedAt : Nat)
  | failure (message : String)
deriving DecidableEq, Repr

/-- The in-memory `metrcResult` object of the destroy handler.  On a thrown
metrc error the handler builds
`{ success: false, error: message, requiresManualReporting: true }`
(invoiceController.js lines 1314-1318) — note this object, not the RMA
document, is where `requiresManualReporting` lives. -/
structure MetrcResult where
  success : Bool
  adjustmentIds : Option (List String)
  reportedAt : Option Nat
  message : Option String
  errMessage : Option String
  requiresManualReporting : Option Bool
deriving DecidableEq, Repr

/-- `metrcResult.adjustmentIds?.join(',') || metrcResult.adjustmentId || null`:
the bulk mock never returns a scalar `adjustmentId`, and an empty join is
falsy. -/
def joinAdjustmentIds (ids : Option (List String)) : Option String :=
  match ids with
  | some l =>
    let j := String.intercalate "," l
    if j = "" then none else some j
  | none => none

/-- The totals computed by the destroy handler:
`Σ (item.weight || 0) * (item.quantity || 0)` and likewise for `thcMg`/`cbdMg`
(for a numeric `quantity`, `quantity || 0` equals `quantity`). -/
def destroyedWeight (items : List RmaItem) : ℤ :=
  (items.map (fun i => (i.weight.getD 0) * i.quantity)).sum

def destroyedTHC (items : List RmaItem) : ℤ :=
  (items.map (fun i => (i.thcMg.getD 0) * i.quantity)).sum

def destroyedCBD (items : List RmaItem) : ℤ :=
  (items.map (fun i => (i.cbdMg.getD 0) * i.quantity)).sum

/-- The waste batch: only items with a truthy `stateTrackingId` are reported. -/
def wasteItemsOf (r : RMA) (destructionMethod : String) (now : Nat) : List WasteItem :=
  (r.items.filter (fun i => truthyStr i.stateTrackingId)).map (fun i =>
    { packageUid := i.stateTrackingId.getD ""
      quantity := i.quantity
      unit := jsOr i.unit "Grams"
      weight := (i.weight.getD 0) * i.quantity
      destructionDate := now
      wasteReason := "RMA " ++ r.rmaNumber ++ ": " ++ r.returnReason ++ " - " ++ r.detailedReason
      destructionMethod := destructionMethod })

/-- The waste manifest number `WM-${rma.rmaNumber}-${Date.now()}`. -/
def wasteManifest (rmaNumber : String) (now : Nat) : String :=
  "WM-" ++ rmaNumber ++ "-" ++ toString now

/-- The caller-visible JSON of a successful destroy (invoiceController.js
lines 1359-1371).  It carries no error detail; a metrc failure shows up only
as `metrcStatus = "pending_manual_report"`. -/
structure DestroyResponse where
  success : Bool
  message : String
  metrcAdjustmentId : Option String
  wasteManifestNumber : String
  totalsWeight : ℤ
  totalsTHC : ℤ
  totalsCBD : ℤ
  metrcStatus : String
deriving DecidableEq, Repr

/-- Result of a successful destroy call: the saved document, the HTTP response,
and the batch that was submitted to the metrc service. -/
structure DestroyOutcome where
  rma : RMA
  response : DestroyResponse
  submitted : List WasteItem
deriving DecidableEq, Repr

/-- `PUT /api/rma/:id/destroy` (invoiceController.js lines 1210-1381).
`outcome` is what the remote `reportBulkWaste` call would do; it is consulted
only when the waste batch is non-empty.  The handler never assigns
`requiresManualReporting` (or the metrc error message) on the RMA document,
and never changes `status`. -/
def destroyRoute (found : Option RMA) (b : DestroyBody) (outcome : MetrcOutcome)
    (now : Nat) : Except String DestroyOutcome :=
  if !(truthyStr b.destructionMethod) then
    .error "Destruction method is required"
  else if !(truthyStr b.destructionWitnessName) then
    .error "Witness name is required for compliance"
  else
    match found with
    | none => .error "RMA not found"
    | some rma =>
      if rma.status ≠ .resolved then
        .error "RMA must be resolved before destruction"
      else
        let wasteItems := wasteItemsOf rma (b.destructionMethod.getD "") now
        let metrcResult : MetrcResult :=
          if wasteItems.length > 0 then
            match outcome with
            | .success ids t =>
              { success := true, adjustmentIds := some ids, reportedAt := some t
                message := none, errMessage := none, requiresManualReporting := none }
            | .failure msg =>
              { success := false, adjustmentIds := none, reportedAt := none
                message := none, errMessage := some msg, requiresManualReporting := some true }
          else
            { success := true, adjustmentIds := some [], reportedAt := some now
              message := some "No tracking IDs to report", errMessage := none
              requiresManualReporting := none }
        let manifestNumber := wasteManifest rma.rmaNumber now
        let savedRma := preSave { rma with
          destructionMethod := some (b.destructionMethod.getD "")
          destructionLocation := some (jsOr b.destructionLocation "Not specified")
          destructionWitnessName := some (b.destructionWitnessName.getD "")
          destructionWitnessTitle := some (jsOr b.destructionWitnessTitle "Staff")
          destructionCompletedDate := some now
          totalWeightDestroyed := some (destroyedWeight rma.items)
          totalTHCDestroyed := some (destroyedTHC rma.items)
          totalCBDDestroyed := some (destroyedCBD rma.items)
          destructionPhotos := some (b.destructionPhotos.getD [])
          wasteManifestNumber := some manifestNumber
          metrcReported := some metrcResult.success
          metrcReportDate := metrcResult.reportedAt
          metrcAdjustmentId := joinAdjustmentIds metrcResult.adjustmentIds
          destructionNotesApplied := some (jsOr b.destructionNotes
            "Item destroyed as part of RMA resolution")
          items := rma.items.map (fun i => { i with
            dispositionMethod := some "destroy"
            dispositionDate := some now
            dispositionNotes := some (jsOr b.destructionNotes
              "Item destroyed as part of RMA resolution") }) }
        .ok
          { rma := savedRma
            response :=
              { success := true
                message := "Destruction completed successfully"
                metrcAdjustmentId := savedRma.metrcAdjustmentId
                wasteManifestNumber := manifestNumber
                totalsWeight := destroyedWeight rma.items
                totalsTHC := destroyedTHC rma.items
                totalsCBD := destroyedCBD rma.items
                metrcStatus := if metrcResult.success then "reported" else "pending_manual_report" }
            submitted := wasteItems }

/-! ## Concrete fixtures -/

/-- A $25.00 credit (2500 cents) as issued by the issue-credit route. -/
def credit25 : StoreCredit :=
  issueCredit "org1" "CM-202510-0001" "Jane Roe" 2500 none

/-- `credit25` after applying $10.00 (transaction t1, user u1, time 3). -/
def creditAfterTen : StoreCredit :=
  { credit25 with
    remainingBalance := 1500
    status := .partiallyUsed
    usageHistory := [⟨"t1", 1000, 1500, 3, "u1", none⟩] }

/-- `creditAfterTen` after applying the remaining $15.00 (transaction t2, time 4). -/
def creditSpent : StoreCredit :=
  { credit25 with
    remainingBalance := 0
    status := .fullyUsed
    usageHistory := [⟨"t1", 1000, 1500, 3, "u1", none⟩, ⟨"t2", 1500, 0, 4, "u1", none⟩] }

/-! ## Claim C1 -/

/-- Invariant preservation lemma shape for `applyCredit`: characterization of
success. -/
theorem applyCredit_ok_iff (c : StoreCredit) (amount : ℤ) (tx u : String)
    (reg : Option String) (now : Nat) (c' : StoreCredit) :
    c.applyCredit amount tx u reg now = Except.ok c' ↔
      ¬ amount > c.remainingBalance ∧ c.isAvailable now = true ∧
      c' = { c with
        remainingBalance := c.remainingBalance - amount
        status :=
          if c.remainingBalance - amount = 0 then CreditStatus.fullyUsed
          else if c.remainingBalance - amount < c.originalAmount then CreditStatus.partiallyUsed
          else c.status
        usageHistory := c.usageHistory ++ [⟨tx, amount, c.remainingBalance - amount, now, u, reg⟩] } := by
  unfold StoreCredit.applyCredit
  by_cases h1 : amount > c.remainingBalance
  · simp [h1]
  · by_cases h2 : c.isAvailable now
    · simp [h1, h2, eq_comm]
    · simp [h1, h2]

/-- Success characterization for `void`. -/
theorem void_ok_iff (c : StoreCredit) (u reason : String) (now : Nat) (c' : StoreCredit) :
    c.void u reason now = Except.ok c' ↔
      c.status ≠ .fullyUsed ∧
      c' = { c with
        status := .voided
        voidedBy := some u
        voidedAt := some now
        voidReason := some reason
        remainingBalance := 0 } := by
  unfold StoreCredit.void
  by_cases h : c.status = .fullyUsed
  · simp [h]
  · simp [h, eq_comm]

/-- C1, corrected.  The ledger invariant
`remainingBalance = originalAmount − Σ usageHistory.amountUsed` holds for a
freshly issued credit and is preserved by every successful `applyCredit`; a
successful `void`, however, zeroes `remainingBalance` while leaving
`usageHistory` untouched, so immediately after a void the invariant does not
hold (unless the original amount equalled the amount already used, which the
fully-used guard rules out). -/
theorem c1_theorem :
    (∀ org memo cust amount exp, CreditInv (issueCredit org memo cust amount exp)) ∧
    (∀ (c : StoreCredit) amount tx u reg now c', CreditInv c →
      c.applyCredit amount tx u reg now = Except.ok c' → CreditInv c') ∧
    (∀ (c : StoreCredit) u reason now c', c.void u reason now = Except.ok c' →
      c'.remainingBalance = 0 ∧ c'.usageHistory = c.usageHistory) := by
  refine ⟨?_, ?_, ?_⟩
  · intro org memo cust amount exp
    simp [CreditInv, issueCredit, usedTotal]
  · intro c amount tx u reg now c' hInv h
    rw [applyCredit_ok_iff] at h
    obtain ⟨-, -, rfl⟩ := h
    unfold CreditInv usedTotal at hInv ⊢
    simp only [List.map_append, List.sum_append, List.map_cons, List.map_nil,
      List.sum_cons, List.sum_nil]
    rw [hInv]
    ring
  · intro c u reason now c' h
    rw [void_ok_iff] at h
    obtain ⟨-, rfl⟩ := h
    exact ⟨rfl, rfl⟩

/-- Witness for C1: the invariant after concretely applying $10 to `credit25`. -/
theorem c1_witness : CreditInv creditAfterTen :=
  c1_theorem.2.1 credit25 1000 "t1" "u1" none 3 creditAfterTen (by decide) (by decide)

/-- Counterexample to C1 as stated: voiding the freshly issued $25 credit
succeeds, and immediately afterwards `remainingBalance` (0) differs from
`originalAmount − Σ usageHistory.amountUsed` (25). -/
theorem c1_counterexample :
    (credit25.void "mgr1" "issued in error" 5).isOk = true ∧
    ¬ CreditInv (exOk (credit25.void "mgr1" "issued in error" 5) credit25) := by
  decide

/-! ## Claim C5 -/

theorem isOk_error (e : ε) : (Except.error e : Except ε α).isOk = false := rfl

theorem isOk_ok (a : α) : (Except.ok a : Except ε α).isOk = true := rfl

/-- Unfolded form of `isAvailable = true`. -/
theorem isAvailable_iff (c : StoreCredit) (now : Nat) :
    c.isAvailable now = true ↔
      (c.status = .active ∨ c.status = .partiallyUsed) ∧
        0 < c.remainingBalance ∧ c.isExpired now = false := by
  simp only [StoreCredit.isAvailable, Bool.and_eq_true, Bool.or_eq_true, beq_iff_eq,
    decide_eq_true_eq, Bool.not_eq_true', and_assoc]

/-- C5, corrected for non-positive amounts.  For every positive amount and
every entry with `remainingBalance ≤ originalAmount` (true of every reachable
entry): `applyCredit` succeeds iff the amount fits the balance, the status is
active/partially-used and the entry is not past expiration; on success the
balance drops by the amount, exactly one usage record is appended with
`remainingAfterUse` equal to the new balance, and the status becomes
`fully_used` at zero and `partially_used` otherwise.  The concrete scenario:
$10.00 then $15.00 against a $25.00 credit, then any further positive apply
fails with the insufficient-balance error. -/
theorem c5_theorem :
    (∀ (c : StoreCredit) (amount : ℤ) tx u reg now, 0 < amount →
      c.remainingBalance ≤ c.originalAmount →
      (((c.applyCredit amount tx u reg now).isOk = true) ↔
        (amount ≤ c.remainingBalance ∧
          (c.status = .active ∨ c.status = .partiallyUsed) ∧
          c.isExpired now = false)) ∧
      (∀ c', c.applyCredit amount tx u reg now = Except.ok c' →
        c'.remainingBalance = c.remainingBalance - amount ∧
        c'.usageHistory =
          c.usageHistory ++ [⟨tx, amount, c.remainingBalance - amount, now, u, reg⟩] ∧
        c'.status = (if c.remainingBalance - amount = 0 then CreditStatus.fullyUsed
                     else CreditStatus.partiallyUsed))) ∧
    credit25.applyCredit 1000 "t1" "u1" none 3 = Except.ok creditAfterTen ∧
    creditAfterTen.applyCredit 1500 "t2" "u1" none 4 = Except.ok creditSpent ∧
    creditSpent.remainingBalance = 0 ∧ creditSpent.status = .fullyUsed ∧
    creditSpent.usageHistory.length = 2 ∧
    (∀ (a : ℤ) tx u reg now, 0 < a →
      creditSpent.applyCredit a tx u reg now =
        Except.error (.insufficientBalance a 0)) := by
  refine ⟨?_, by decide, by decide, by decide, by decide, by decide, ?_⟩
  · intro c amount tx u reg now hpos hle
    constructor
    · by_cases h1 : amount > c.remainingBalance
      · simp only [StoreCredit.applyCredit, if_pos h1, isOk_error, Bool.false_eq_true, false_iff]
        rintro ⟨hamt, -, -⟩
        exact absurd h1 (not_lt.mpr hamt)
      · by_cases h2 : c.isAvailable now = true
        · simp only [StoreCredit.applyCredit, if_neg h1, h2, Bool.not_true,
            Bool.false_eq_true, if_false, isOk_ok, true_iff]
          have hA := (isAvailable_iff c now).mp h2
          exact ⟨not_lt.mp h1, hA.1, hA.2.2⟩
        · have h2' : c.isAvailable now = false := by
            revert h2; cases c.isAvailable now <;> simp
          simp only [StoreCredit.applyCredit, if_neg h1, h2', Bool.not_false, if_true,
            isOk_error, Bool.false_eq_true, false_iff]
          rintro ⟨hamt, hstat, hexp⟩
          have : c.isAvailable now = true :=
            (isAvailable_iff c now).mpr ⟨hstat, by linarith, hexp⟩
          rw [h2'] at this
          exact absurd this (by simp)
    · intro c' h
      rw [applyCredit_ok_iff] at h
      obtain ⟨-, -, rfl⟩ := h
      refine ⟨rfl, rfl, ?_⟩
      by_cases hz : c.remainingBalance - amount = 0
      · simp [hz]
      · simp only [if_neg hz]
        rw [if_pos (by linarith)]
  · intro a tx u reg now ha
    have hb : creditSpent.remainingBalance = 0 := by decide
    simp only [StoreCredit.applyCredit]
    rw [hb, if_pos ha]

/-- Witness for C5: the success characterization evaluated on `credit25`. -/
theorem c5_witness :
    (credit25.applyCredit 1000 "t1" "u1" none 3).isOk = true ↔
      (1000 ≤ credit25.remainingBalance ∧
        (credit25.status = .active ∨ credit25.status = .partiallyUsed) ∧
        credit25.isExpired 3 = false) :=
  (c5_theorem.1 credit25 1000 "t1" "u1" none 3 (by decide) (by decide)).1

/-- Counterexample to C5 as stated: applying an amount of 0 to a fresh active
credit passes every guard and succeeds, but the resulting status is still
`active`, not the `partially_used` that the claim's "fully_used if the new
balance is 0 and partially_used otherwise" demands (the new balance is
2500 ≠ 0). -/
theorem c5_counterexample :
    (credit25.applyCredit 0 "t0" "u0" none 0).isOk = true ∧
    (exOk (credit25.applyCredit 0 "t0" "u0" none 0) credit25).remainingBalance ≠ 0 ∧
    (exOk (credit25.applyCredit 0 "t0" "u0" none 0) credit25).status ≠
      CreditStatus.partiallyUsed := by
  decide

/-! ## Claim C6 -/

/-- C6, corrected: the balance is non-increasing under every successful apply
with a **non-negative** amount, and `void` sets it to 0.  (A negative amount is
accepted by both `applyCredit` and the POS route and increases the balance —
see the counterexample.) -/
theorem c6_theorem :
    (∀ (c : StoreCredit) (amount : ℤ) tx u reg now c', 0 ≤ amount →
      c.applyCredit amount tx u reg now = Except.ok c' →
      c'.remainingBalance ≤ c.remainingBalance) ∧
    (∀ (c : StoreCredit) u reason now c', c.void u reason now = Except.ok c' →
      c'.remainingBalance = 0) := by
  constructor
  · intro c amount tx u reg now c' ha h
    rw [applyCredit_ok_iff] at h
    obtain ⟨-, -, rfl⟩ := h
    show c.remainingBalance - amount ≤ c.remainingBalance
    linarith
  · intro c u reason now c' h
    rw [void_ok_iff] at h
    obtain ⟨-, rfl⟩ := h
    rfl

/-- Witness for C6: monotonicity instantiated on the concrete $10.00 apply. -/
theorem c6_witness : creditAfterTen.remainingBalance ≤ credit25.remainingBalance :=
  c6_theorem.1 credit25 1000 "t1" "u1" none 3 creditAfterTen (by decide) (by decide)

/-- Counterexample to C6 as stated: the POS apply-credit route accepts a
negative `amountToApply` (-$5.00) — it is truthy, the credit is available, and
`-500 > remainingBalance` is false — and the successful apply **increases**
the balance from 2500 to 3000. -/
theorem c6_counterexample :
    (posApplyCredit (some credit25)
      ⟨some "CM-202510-0001", some (-500), some "t9", none⟩ "u1" 7).isOk = true ∧
    (exOk (posApplyCredit (some credit25)
      ⟨some "CM-202510-0001", some (-500), some "t9", none⟩ "u1" 7)
        credit25).remainingBalance > credit25.remainingBalance := by
  decide

/-! ## RMA fixtures and save-hook lemmas -/

/-- A concrete return line worth $25.00, with compliance data and a tracking id. -/
def item25 : RmaItem :=
  { productId := some "p1"
    productName := "OG Kush 3.5g"
    sku := some "SKU-1"
    batchNumber := some "B-77"
    quantity := 1
    unitPrice := 2500
    totalValue := 2500
    reason := some "defective"
    condition := some "defective"
    defectType := none
    stateTrackingId := some "1A4000000000000000000123"
    category := some "Flower"
    strainType := some "indica"
    thcContent := some 22
    cbdContent := some 1
    thcMg := some 350
    cbdMg := some 10
    unit := some "Grams"
    weight := some 4
    packagedDate := some 100
    harvestDate := some 90
    labTestDate := some 95
    localPackagedDate := none
    localHarvestDate := none
    localExpirationDate := none
    licensedProducer := some "Acme Farms"
    producerLicense := some "LIC-9"
    labTested := some true
    labTestResult := some "pass"
    strainName := some "OG Kush"
    productDescription := none
    dispositionMethod := some "pending"
    dispositionDate := none
    dispositionNotes := none }

/-- A different line worth $40.00, used to mutate item lists. -/
def item40 : RmaItem :=
  { item25 with productName := "Gummies 100mg", unitPrice := 4000, totalValue := 4000 }

/-- A concrete pending return request holding `item25`. -/
def rmaPending : RMA :=
  { organizationId := "org1"
    rmaNumber := "RMA-202510-0001"
    rmaType := "customer_return"
    relatedInvoiceId := none
    invoiceNumber := none
    customerId := none
    customerName := "Jane Roe"
    customerEmail := none
    customerPhone := none
    items := [item25]
    totalValue := 2500
    returnReason := "quality_issue"
    detailedReason := "mold on flower"
    customerComplaint := none
    status := .pending_approval
    approvedBy := none
    approvedAt := none
    rejectionReason := none
    receivedAt := none
    receivedBy := none
    inspectionDate := none
    inspectedBy := none
    inspectionNotes := none
    inspectionResult := "pending"
    resolutionType := "pending"
    resolutionDate := none
    refundAmount := 0
    replacementOrderId := none
    creditMemoNumber := none
    creditAmount := 0
    regulatoryNotificationRequired := false
    internalNotes := none
    createdBy := "u1"
    lastModifiedBy := none
    closedAt := none
    closedBy := none
    destructionMethod := none
    destructionLocation := none
    destructionWitnessName := none
    destructionWitnessTitle := none
    destructionNotesApplied := none
    destructionCompletedDate := none
    totalWeightDestroyed := none
    totalTHCDestroyed := none
    totalCBDDestroyed := none
    destructionPhotos := none
    wasteManifestNumber := none
    metrcReported := none
    metrcReportDate := none
    metrcAdjustmentId := none
    requiresManualReporting := none
    refundProcessed := none
    refundTransactionId := none }

/-- The same request after inspection. -/
def rmaInspectedEx : RMA :=
  { rmaPending with status := .inspected, inspectionResult := "confirmed_defective" }

/-- The same request resolved as store credit. -/
def rmaResolvedEx : RMA :=
  { rmaPending with
    status := .resolved
    resolutionType := "store_credit"
    creditAmount := 2500
    creditMemoNumber := some "CM-202510-0001"
    resolutionDate := some 6 }

theorem preSave_items (r : RMA) : (preSave r).items = r.items := by
  unfold preSave; split <;> rfl

theorem preSave_status (r : RMA) : (preSave r).status = r.status := by
  unfold preSave; split <;> rfl

theorem preSave_customerName (r : RMA) : (preSave r).customerName = r.customerName := by
  unfold preSave; split <;> rfl

theorem preSave_returnReason (r : RMA) : (preSave r).returnReason = r.returnReason := by
  unfold preSave; split <;> rfl

theorem preSave_detailedReason (r : RMA) : (preSave r).detailedReason = r.detailedReason := by
  unfold preSave; split <;> rfl

theorem preSave_internalNotes (r : RMA) : (preSave r).internalNotes = r.internalNotes := by
  unfold preSave; split <;> rfl

theorem preSave_rmaNumber (r : RMA) : (preSave r).rmaNumber = r.rmaNumber := by
  unfold preSave; split <;> rfl

theorem preSave_requiresManualReporting (r : RMA) :
    (preSave r).requiresManualReporting = r.requiresManualReporting := by
  unfold preSave; split <;> rfl

theorem preSave_metrcReported (r : RMA) : (preSave r).metrcReported = r.metrcReported := by
  unfold preSave; split <;> rfl

theorem preSave_metrcAdjustmentId (r : RMA) :
    (preSave r).metrcAdjustmentId = r.metrcAdjustmentId := by
  unfold preSave; split <;> rfl

theorem preSave_wasteManifestNumber (r : RMA) :
    (preSave r).wasteManifestNumber = r.wasteManifestNumber := by
  unfold preSave; split <;> rfl

theorem preSave_destructionWitnessName (r : RMA) :
    (preSave r).destructionWitnessName = r.destructionWitnessName := by
  unfold preSave; split <;> rfl

theorem preSave_destructionMethod (r : RMA) :
    (preSave r).destructionMethod = r.destructionMethod := by
  unfold preSave; split <;> rfl

theorem preSave_destructionCompletedDate (r : RMA) :
    (preSave r).destructionCompletedDate = r.destructionCompletedDate := by
  unfold preSave; split <;> rfl

theorem preSave_totalWeightDestroyed (r : RMA) :
    (preSave r).totalWeightDestroyed = r.totalWeightDestroyed := by
  unfold preSave; split <;> rfl

theorem preSave_totalTHCDestroyed (r : RMA) :
    (preSave r).totalTHCDestroyed = r.totalTHCDestroyed := by
  unfold preSave; split <;> rfl

theorem preSave_totalCBDDestroyed (r : RMA) :
    (preSave r).totalCBDDestroyed = r.totalCBDDestroyed := by
  unfold preSave; split <;> rfl

theorem preSave_total_of_ne (r : RMA) (h : r.items ≠ []) :
    (preSave r).totalValue = itemsTotal r.items := by
  unfold preSave
  rw [if_pos (List.length_pos.mpr h)]

theorem preSave_total_of_empty (r : RMA) (h : r.items = []) :
    (preSave r).totalValue = r.totalValue := by
  unfold preSave
  rw [if_neg (by simp [h])]

/-! ## Claim C2 -/

/-- An update body touching nothing. -/
def emptyUpdateBody : UpdateBody :=
  { customerName := none, customerEmail := none, customerPhone := none, items := none
    returnReason := none, detailedReason := none, customerComplaint := none
    internalNotes := none }

/-- An update body that empties the item list. -/
def c2Body : UpdateBody := { emptyUpdateBody with items := some [] }

/-- C2, corrected for the empty-item-list case.  After every successful
creation the total equals the sum of line values; after every successful
update it does **provided the resulting item list is non-empty**; every
persistence (the pre-save hook, hence every transition method) maintains the
equation on a non-empty item list but leaves `totalValue` untouched when the
list is empty. -/
theorem c2_theorem :
    (∀ b inv org u num r', createRoute b inv org u num = Except.ok r' →
      r'.totalValue = itemsTotal r'.items) ∧
    (∀ found b u r', updateRoute found b u = Except.ok r' →
      r'.items ≠ [] → r'.totalValue = itemsTotal r'.items) ∧
    (∀ r : RMA, r.items ≠ [] → (preSave r).totalValue = itemsTotal (preSave r).items) ∧
    (∀ r : RMA, r.items = [] → (preSave r).totalValue = r.totalValue) := by
  refine ⟨?_, ?_, ?_, preSave_total_of_empty⟩
  · intro b inv org u num r' h
    unfold createRoute at h
    split at h
    · exact Except.noConfusion h
    split at h
    · exact Except.noConfusion h
    split at h
    · exact Except.noConfusion h
    rename_i h1 h2 h3
    rw [Except.ok.injEq] at h
    subst h
    have hne : b.items.getD [] ≠ [] := by
      intro he
      rw [he] at h2
      simp at h2
    have hitems : (match b.relatedInvoiceId, inv with
        | some _, some i => (b.items.getD []).map (enrichItem i)
        | _, _ => b.items.getD []) ≠ [] := by
      rcases b.relatedInvoiceId with _ | ri <;> rcases inv with _ | iv <;> simp [hne]
    rw [preSave_total_of_ne _ hitems, preSave_items]
  · intro found b u r' h hne
    cases found with
    | none => exact Except.noConfusion h
    | some rma =>
      simp only [updateRoute] at h
      split at h
      · exact Except.noConfusion h
      rw [Except.ok.injEq] at h
      subst h
      rw [preSave_items] at hne
      rw [preSave_total_of_ne _ hne, preSave_items]
  · intro r h
    rw [preSave_total_of_ne _ h, preSave_items]

/-- Witness for C2: the pre-save hook on the concrete pending request. -/
theorem c2_witness :
    (preSave rmaPending).totalValue = itemsTotal (preSave rmaPending).items :=
  c2_theorem.2.2.1 rmaPending (by decide)

/-- Counterexample to C2 as stated: updating the pending request with
`items: []` succeeds, but `totalValue` keeps its previous value 2500 instead
of the sum 0 of the now-empty list — the pre-save hook skips recomputation
for an empty list. -/
theorem c2_counterexample :
    (updateRoute (some rmaPending) c2Body "u2").isOk = true ∧
    (exOk (updateRoute (some rmaPending) c2Body "u2") rmaPending).items = [] ∧
    (exOk (updateRoute (some rmaPending) c2Body "u2") rmaPending).totalValue ≠
      itemsTotal (exOk (updateRoute (some rmaPending) c2Body "u2") rmaPending).items := by
  decide

/-! ## Claim C3 -/

/-- Success shape of the resolve route: it requires the looked-up request to
be `inspected` and leaves it `resolved`. -/
theorem resolveRoute_ok (found : Option RMA) (b : ResolveBody) (now : Nat) (r' : RMA)
    (h : resolveRoute found b now = Except.ok r') :
    (∃ r, found = some r ∧ r.status = .inspected) ∧ r'.status = .resolved := by
  cases found with
  | none =>
    simp only [resolveRoute] at h
    split at h
    · exact Except.noConfusion h
    · exact Except.noConfusion h
  | some rma =>
    simp only [resolveRoute] at h
    split at h
    · exact Except.noConfusion h
    split at h
    · exact Except.noConfusion h
    rename_i hval hst
    refine ⟨⟨rma, rfl, not_not.mp hst⟩, ?_⟩
    split at h
    · rw [Except.ok.injEq] at h
      subst h
      rw [RMA.processRefund, preSave_status]
    · rw [Except.ok.injEq] at h
      subst h
      rw [RMA.processReplacement, preSave_status]
    · rw [Except.ok.injEq] at h
      subst h
      rw [RMA.issueCredit, preSave_status]
    · exact Except.noConfusion h

/-- A store-credit resolve body. -/
def resolveBodySC : ResolveBody :=
  { resolutionType := some "store_credit", refundAmount := none, replacementOrderId := none
    creditAmount := some 2500, creditMemoNumber := some "CM-202510-0001" }

/-- The result of resolving the inspected fixture as store credit. -/
def rmaResolvedSC : RMA :=
  exOk (resolveRoute (some rmaInspectedEx) resolveBodySC 6) rmaInspectedEx

/-- C3, corrected on the error identity.  Resolve succeeds only from
`inspected` and leaves the request `resolved`; consequently a second resolve
call on the already-resolved result can never succeed — so no request records
two resolution types.  The second call fails with the same generic
invalid-transition response (`RMA must be inspected before resolution`) used
for every wrong-status caller; the code has no distinct `AlreadyResolvedError`
(see the counterexample). -/
theorem c3_theorem :
    (∀ found b now r', resolveRoute found b now = Except.ok r' →
      (∃ r, found = some r ∧ r.status = .inspected) ∧ r'.status = .resolved) ∧
    (∀ (r : RMA) b now r' b2 now2 r2, resolveRoute (some r) b now = Except.ok r' →
      resolveRoute (some r') b2 now2 ≠ Except.ok r2) := by
  refine ⟨resolveRoute_ok, ?_⟩
  intro r b now r' b2 now2 r2 h h2
  have h1 := (resolveRoute_ok _ _ _ _ h).2
  obtain ⟨⟨rr, hrr, hst⟩, -⟩ := resolveRoute_ok _ _ _ _ h2
  rw [Option.some.injEq] at hrr
  subst hrr
  rw [h1] at hst
  exact RmaStatus.noConfusion hst

/-- Witness for C3: the success shape on the concrete inspected request. -/
theorem c3_witness :
    (∃ r, some rmaInspectedEx = some r ∧ r.status = .inspected) ∧
      rmaResolvedSC.status = .resolved :=
  c3_theorem.1 (some rmaInspectedEx) resolveBodySC 6 rmaResolvedSC (by decide)

/-- Counterexample to C3 as stated: a resolve call on an already-resolved
request fails with exactly the same error value as a resolve call on a
never-inspected (pending) request — the generic invalid-transition response,
not a distinct `AlreadyResolvedError`. -/
theorem c3_counterexample :
    resolveRoute (some rmaResolvedEx) resolveBodySC 8 =
      Except.error "RMA must be inspected before resolution" ∧
    resolveRoute (some rmaPending) resolveBodySC 8 =
      Except.error "RMA must be inspected before resolution" := by
  decide

/-! ## Claim C4 -/

/-- C4 is a code bug: the reject route validates only the non-empty reason and
performs no status check (every sibling transition route has one), so a reject
on an already-resolved request succeeds and overwrites its status with
`rejected`.  This theorem evaluates the embedded route at the failing input. -/
theorem c4_theorem :
    (rejectRoute (some rmaResolvedEx) (some "customer withdrew complaint") "u9" 7).isOk
        = true ∧
    (exOk (rejectRoute (some rmaResolvedEx) (some "customer withdrew complaint") "u9" 7)
        rmaResolvedEx).status = RmaStatus.rejected ∧
    rmaResolvedEx.status = RmaStatus.resolved := by
  decide

/-! ## Claim C7 -/

/-- An update body mutating items, customer name and reason. -/
def c7Body : UpdateBody :=
  { emptyUpdateBody with
    items := some [item40]
    customerName := some "Mallory"
    returnReason := some "recall" }

/-- C7, corrected.  The update route blocks **all** mutation (even
`internalNotes`) exactly when the status is `resolved`, `closed` or
`rejected`; in every other status — including `received`, `inspecting` and
`inspected`, which have left `pending_approval`/`approved` — the item list,
reason fields and customer fields are all still writable. -/
theorem c7_theorem :
    (∀ (r : RMA) b u, (r.status = .resolved ∨ r.status = .closed ∨ r.status = .rejected) →
      updateRoute (some r) b u =
        Except.error "Cannot update RMA after it has been resolved, closed, or rejected") ∧
    (∀ (r : RMA) b u r', updateRoute (some r) b u = Except.ok r' →
      ¬(r.status = .resolved ∨ r.status = .closed ∨ r.status = .rejected) ∧
      r'.items = b.items.getD r.items ∧
      r'.customerName = b.customerName.getD r.customerName ∧
      r'.returnReason = b.returnReason.getD r.returnReason ∧
      r'.detailedReason = b.detailedReason.getD r.detailedReason ∧
      r'.internalNotes = updOpt r.internalNotes b.internalNotes ∧
      r'.status = r.status) := by
  constructor
  · intro r b u h
    simp only [updateRoute]
    rw [if_pos h]
  · intro r b u r' h
    simp only [updateRoute] at h
    split at h
    · exact Except.noConfusion h
    rename_i hc
    rw [Except.ok.injEq] at h
    subst h
    refine ⟨hc, ?_, ?_, ?_, ?_, ?_, ?_⟩
    · rw [preSave_items]; rfl
    · rw [preSave_customerName]; rfl
    · rw [preSave_returnReason]; rfl
    · rw [preSave_detailedReason]; rfl
    · rw [preSave_internalNotes]; rfl
    · rw [preSave_status]; rfl

/-- Witness for C7: the block on the concrete resolved request. -/
theorem c7_witness :
    updateRoute (some rmaResolvedEx) emptyUpdateBody "u2" =
      Except.error "Cannot update RMA after it has been resolved, closed, or rejected" :=
  c7_theorem.1 rmaResolvedEx emptyUpdateBody "u2" (by decide)

/-- Counterexample to C7 as stated: on a request whose status (`inspected`)
has left `pending_approval`/`approved`, an update mutating the item list, the
customer name and the return reason succeeds and changes all three. -/
theorem c7_counterexample :
    (updateRoute (some rmaInspectedEx) c7Body "u7").isOk = true ∧
    (exOk (updateRoute (some rmaInspectedEx) c7Body "u7") rmaInspectedEx).items ≠
      rmaInspectedEx.items ∧
    (exOk (updateRoute (some rmaInspectedEx) c7Body "u7") rmaInspectedEx).customerName ≠
      rmaInspectedEx.customerName ∧
    (exOk (updateRoute (some rmaInspectedEx) c7Body "u7") rmaInspectedEx).returnReason ≠
      rmaInspectedEx.returnReason := by
  decide

/-! ## Claim C8 -/

theorem wasteItemsOf_length (r : RMA) (m : String) (now : Nat) :
    (wasteItemsOf r m now).length =
      (r.items.filter (fun i => truthyStr i.stateTrackingId)).length := by
  simp [wasteItemsOf]

theorem wasteItemsOf_destructionDate (r : RMA) (m : String) (now : Nat) :
    ∀ w ∈ wasteItemsOf r m now, w.destructionDate = now := by
  intro w hw
  simp only [wasteItemsOf, List.mem_map] at hw
  obtain ⟨i, -, rfl⟩ := hw
  rfl

/-- The guards under which a destroy call succeeds. -/
theorem destroyRoute_isOk (r : RMA) (b : DestroyBody) (m : MetrcOutcome) (now : Nat)
    (h1 : truthyStr b.destructionMethod = true)
    (h2 : truthyStr b.destructionWitnessName = true)
    (h3 : r.status = .resolved) :
    (destroyRoute (some r) b m now).isOk = true := by
  simp [destroyRoute, h1, h2, h3, isOk_ok]

/-- Shape of every successful destroy call, independent of the metrc outcome:
the request must be `resolved`; the saved document keeps its status and
number, carries the freshly generated manifest number and the recomputed
totals, and `requiresManualReporting` is left exactly as it was (the handler
never assigns it); the response reports success and the submitted batch is the
tracked-lines batch. -/
theorem destroyRoute_ok_shape (r : RMA) (b : DestroyBody) (m : MetrcOutcome) (now : Nat)
    (out : DestroyOutcome) (h : destroyRoute (some r) b m now = Except.ok out) :
    r.status = .resolved ∧
    out.rma.status = r.status ∧
    out.rma.rmaNumber = r.rmaNumber ∧
    out.rma.wasteManifestNumber = some (wasteManifest r.rmaNumber now) ∧
    out.rma.destructionCompletedDate = some now ∧
    out.rma.destructionMethod = some (b.destructionMethod.getD "") ∧
    out.rma.destructionWitnessName = some (b.destructionWitnessName.getD "") ∧
    out.rma.totalWeightDestroyed = some (destroyedWeight r.items) ∧
    out.rma.totalTHCDestroyed = some (destroyedTHC r.items) ∧
    out.rma.totalCBDDestroyed = some (destroyedCBD r.items) ∧
    out.rma.requiresManualReporting = r.requiresManualReporting ∧
    out.response.success = true ∧
    out.submitted = wasteItemsOf r (b.destructionMethod.getD "") now := by
  simp only [destroyRoute] at h
  split at h
  · exact Except.noConfusion h
  split at h
  · exact Except.noConfusion h
  split at h
  · exact Except.noConfusion h
  rename_i hm hw hst
  rw [Except.ok.injEq] at h
  subst h
  refine ⟨not_not.mp hst, ?_, ?_, ?_, ?_, ?_, ?_, ?_, ?_, ?_, ?_, rfl, rfl⟩
  · rw [preSave_status]
  · rw [preSave_rmaNumber]
  · rw [preSave_wasteManifestNumber]
  · rw [preSave_destructionCompletedDate]
  · rw [preSave_destructionMethod]
  · rw [preSave_destructionWitnessName]
  · rw [preSave_totalWeightDestroyed]
  · rw [preSave_totalTHCDestroyed]
  · rw [preSave_totalCBDDestroyed]
  · rw [preSave_requiresManualReporting]

/-- C8, corrected on the manual-reporting flag and the retained error.  When
the metrc service fails on a resolved request with at least one tracked line:
the call still returns success, the local destruction fields (manifest number,
method, witness, date, destroyed totals) are all persisted on the request,
`metrcReported = false` is persisted, the status is untouched — but
`requiresManualReporting` is **not** written to the request (it lives only on
the handler's in-memory result object), and the failure is surfaced to the
caller only as `metrcStatus = "pending_manual_report"`, without the original
error. -/
theorem c8_theorem :
    ∀ (r : RMA) (b : DestroyBody) (msg : String) (now : Nat) (out : DestroyOutcome),
    destroyRoute (some r) b (MetrcOutcome.failure msg) now = Except.ok out →
    r.items.filter (fun i => truthyStr i.stateTrackingId) ≠ [] →
    out.response.success = true ∧
    out.rma.metrcReported = some false ∧
    out.response.metrcStatus = "pending_manual_report" ∧
    out.rma.status = r.status ∧
    out.rma.wasteManifestNumber = some (wasteManifest r.rmaNumber now) ∧
    out.rma.destructionMethod = some (b.destructionMethod.getD "") ∧
    out.rma.destructionWitnessName = some (b.destructionWitnessName.getD "") ∧
    out.rma.destructionCompletedDate = some now ∧
    out.rma.totalWeightDestroyed = some (destroyedWeight r.items) ∧
    out.rma.totalTHCDestroyed = some (destroyedTHC r.items) ∧
    out.rma.totalCBDDestroyed = some (destroyedCBD r.items) ∧
    out.rma.requiresManualReporting = r.requiresManualReporting ∧
    out.rma.metrcAdjustmentId = none := by
  intro r b msg now out h hne
  have hlen : 0 < (wasteItemsOf r (b.destructionMethod.getD "") now).length := by
    rw [wasteItemsOf_length]
    exact List.length_pos.mpr hne
  simp only [destroyRoute] at h
  split at h
  · exact Except.noConfusion h
  split at h
  · exact Except.noConfusion h
  split at h
  · exact Except.noConfusion h
  rw [Except.ok.injEq] at h
  subst h
  refine ⟨rfl, ?_, ?_, ?_, ?_, ?_, ?_, ?_, ?_, ?_, ?_, ?_, ?_⟩ <;>
    simp [preSave_metrcReported, preSave_status, preSave_wasteManifestNumber,
      preSave_destructionMethod, preSave_destructionWitnessName,
      preSave_destructionCompletedDate, preSave_totalWeightDestroyed,
      preSave_totalTHCDestroyed, preSave_totalCBDDestroyed,
      preSave_requiresManualReporting, preSave_metrcAdjustmentId,
      joinAdjustmentIds, if_pos hlen]

/-- A valid destroy request body. -/
def destroyBodyEx : DestroyBody :=
  { destructionMethod := some "incineration"
    destructionLocation := some "Facility A"
    destructionWitnessName := some "Sam Lee"
    destructionWitnessTitle := some "Manager"
    destructionNotes := none
    destructionPhotos := none }

/-- A throwaway outcome used as the `exOk` fallback. -/
def dummyOutcome : DestroyOutcome :=
  { rma := rmaPending
    response :=
      { success := false, message := "", metrcAdjustmentId := none
        wasteManifestNumber := "", totalsWeight := 0, totalsTHC := 0, totalsCBD := 0
        metrcStatus := "" }
    submitted := [] }

/-- The outcome of destroying the resolved fixture while the metrc service is
unreachable. -/
def c8Out : DestroyOutcome :=
  exOk (destroyRoute (some rmaResolvedEx) destroyBodyEx
    (MetrcOutcome.failure "connect ECONNREFUSED") 99) dummyOutcome

/-- Witness for C8: the failure-path conclusions on the concrete resolved
request. -/
theorem c8_witness :
    c8Out.response.success = true ∧
    c8Out.rma.metrcReported = some false ∧
    c8Out.response.metrcStatus = "pending_manual_report" ∧
    c8Out.rma.status = rmaResolvedEx.status ∧
    c8Out.rma.wasteManifestNumber = some (wasteManifest rmaResolvedEx.rmaNumber 99) ∧
    c8Out.rma.destructionMethod = some (destroyBodyEx.destructionMethod.getD "") ∧
    c8Out.rma.destructionWitnessName = some (destroyBodyEx.destructionWitnessName.getD "") ∧
    c8Out.rma.destructionCompletedDate = some 99 ∧
    c8Out.rma.totalWeightDestroyed = some (destroyedWeight rmaResolvedEx.items) ∧
    c8Out.rma.totalTHCDestroyed = some (destroyedTHC rmaResolvedEx.items) ∧
    c8Out.rma.totalCBDDestroyed = some (destroyedCBD rmaResolvedEx.items) ∧
    c8Out.rma.requiresManualReporting = rmaResolvedEx.requiresManualReporting ∧
    c8Out.rma.metrcAdjustmentId = none :=
  c8_theorem rmaResolvedEx destroyBodyEx "connect ECONNREFUSED" 99 c8Out
    (by decide) (by decide)

/-- Counterexample to C8 as stated: after the concrete failing destroy, the
persisted request carries `requiresManualReporting = none` — it is never
marked `true` as the claim demands (and no field of the request or of the
response retains the original error message). -/
theorem c8_counterexample :
    (destroyRoute (some rmaResolvedEx) destroyBodyEx
      (MetrcOutcome.failure "connect ECONNREFUSED") 99).isOk = true ∧
    c8Out.rma.requiresManualReporting = none ∧
    c8Out.rma.metrcReported = some false ∧
    c8Out.rma.status = RmaStatus.resolved := by
  decide

/-! ## Claim C9 -/

/-- An input line whose compliance fields are absent. -/
def c9Item : RmaItem :=
  { item25 with
    batchNumber := none, stateTrackingId := none, thcMg := none, cbdMg := none
    weight := none, licensedProducer := none, labTested := none }

/-- A create body with no sale reference. -/
def c9Body : CreateBody :=
  { rmaType := none, relatedInvoiceId := none, invoiceNumber := none, customerId := none
    customerName := some "Jane Roe", customerEmail := none, customerPhone := none
    items := some [c9Item], returnReason := some "quality_issue"
    detailedReason := some "mold on flower", customerComplaint := none
    regulatoryNotificationRequired := none }

/-- C9, corrected.  When no sale reference is supplied (or the invoice lookup
yields nothing), the items are stored exactly as the caller sent them — no
live-product fallback and no `UNKNOWN` placeholders exist in the handler; a
line with no matching invoice line is likewise returned unchanged by the
enrichment; and in all these cases the request is still created (validation
permitting). -/
theorem c9_theorem :
    (∀ b inv org u num r', createRoute b inv org u num = Except.ok r' →
      (b.relatedInvoiceId = none ∨ inv = none) → r'.items = b.items.getD []) ∧
    (∀ (inv : Invoice) (item : RmaItem), inv.items.find? (invoiceItemMatches item) = none →
      enrichItem inv item = item) ∧
    (∀ b inv org u num, truthyStr b.customerName = true → b.items.getD [] ≠ [] →
      truthyStr b.returnReason = true → truthyStr b.detailedReason = true →
      (createRoute b inv org u num).isOk = true) := by
  refine ⟨?_, ?_, ?_⟩
  · intro b inv org u num r' h hd
    unfold createRoute at h
    split at h
    · exact Except.noConfusion h
    split at h
    · exact Except.noConfusion h
    split at h
    · exact Except.noConfusion h
    rw [Except.ok.injEq] at h
    subst h
    rw [preSave_items]
    rcases hri : b.relatedInvoiceId with _ | ri <;> cases inv <;> simp [hri] at hd ⊢
  · intro inv item h
    unfold enrichItem
    rw [h]
  · intro b inv org u num h1 hne h3 h4
    have hlen : ¬((b.items.getD []).length = 0) := by
      intro h0
      exact hne (List.length_eq_zero.mp h0)
    simp [createRoute, h1, h3, h4, hlen, isOk_ok]

/-- Witness for C9: the concrete create with no sale reference succeeds and
stores the caller's items verbatim. -/
theorem c9_witness :
    (createRoute c9Body none "org1" "u1" "RMA-202510-0002").isOk = true :=
  c9_theorem.2.2 c9Body none "org1" "u1" "RMA-202510-0002"
    (by decide) (by decide) (by decide) (by decide)

/-- Counterexample to C9 as stated: creating a return with no sale reference
and a line whose compliance fields are absent succeeds, and the stored line is
exactly the input — the absent fields stay `none` instead of being filled from
the live product record or with `UNKNOWN` placeholders. -/
theorem c9_counterexample :
    (createRoute c9Body none "org1" "u1" "RMA-202510-0002").isOk = true ∧
    (exOk (createRoute c9Body none "org1" "u1" "RMA-202510-0002") rmaPending).items
      = [c9Item] ∧
    c9Item.batchNumber = none ∧
    c9Item.stateTrackingId = none ∧
    c9Item.batchNumber ≠ some "UNKNOWN" := by
  decide

/-! ## Claim C10 -/

/-- C10, confirmed: destroy has no already-destroyed guard.  Whenever a first
destroy call succeeded, a second one with a valid body also succeeds (the
status is still `resolved`), overwrites the destruction fields with a manifest
number and date generated from the second call's clock and with recomputed
totals, and submits one waste tuple per tracked line to the reporting service
again. -/
theorem c10_theorem :
    ∀ (r : RMA) (b1 : DestroyBody) (m1 : MetrcOutcome) (n1 : Nat) (out1 : DestroyOutcome)
      (b2 : DestroyBody) (m2 : MetrcOutcome) (n2 : Nat),
    destroyRoute (some r) b1 m1 n1 = Except.ok out1 →
    truthyStr b2.destructionMethod = true →
    truthyStr b2.destructionWitnessName = true →
    (destroyRoute (some out1.rma) b2 m2 n2).isOk = true ∧
    (∀ out2, destroyRoute (some out1.rma) b2 m2 n2 = Except.ok out2 →
      out2.rma.wasteManifestNumber = some (wasteManifest r.rmaNumber n2) ∧
      out2.rma.destructionCompletedDate = some n2 ∧
      out2.rma.totalWeightDestroyed = some (destroyedWeight out1.rma.items) ∧
      out2.submitted = wasteItemsOf out1.rma (b2.destructionMethod.getD "") n2 ∧
      out2.submitted.length =
        (out1.rma.items.filter (fun i => truthyStr i.stateTrackingId)).length ∧
      (∀ w ∈ out2.submitted, w.destructionDate = n2)) := by
  intro r b1 m1 n1 out1 b2 m2 n2 h hm hw
  obtain ⟨hres, hstat, hnum, -⟩ := destroyRoute_ok_shape _ _ _ _ _ h
  constructor
  · exact destroyRoute_isOk _ _ _ _ hm hw (hstat.trans hres)
  · intro out2 h2
    obtain ⟨-, -, -, hman2, hdate2, -, -, hwt2, -, -, -, -, hsub2⟩ :=
      destroyRoute_ok_shape _ _ _ _ _ h2
    refine ⟨?_, hdate2, hwt2, hsub2, ?_, ?_⟩
    · rw [hman2, hnum]
    · rw [hsub2, wasteItemsOf_length]
    · rw [hsub2]
      exact wasteItemsOf_destructionDate _ _ _

/-- The outcome of a first successful destroy on the resolved fixture. -/
def c10FirstOut : DestroyOutcome :=
  exOk (destroyRoute (some rmaResolvedEx) destroyBodyEx
    (MetrcOutcome.success ["MOCK-ADJ-0"] 99) 99) dummyOutcome

/-- Witness for C10: a concrete second destroy on the already-destroyed
fixture. -/
theorem c10_witness :
    (destroyRoute (some c10FirstOut.rma) destroyBodyEx
      (MetrcOutcome.success ["MOCK-ADJ-1"] 120) 120).isOk = true ∧
    (∀ out2, destroyRoute (some c10FirstOut.rma) destroyBodyEx
        (MetrcOutcome.success ["MOCK-ADJ-1"] 120) 120 = Except.ok out2 →
      out2.rma.wasteManifestNumber = some (wasteManifest rmaResolvedEx.rmaNumber 120) ∧
      out2.rma.destructionCompletedDate = some 120 ∧
      out2.rma.totalWeightDestroyed = some (destroyedWeight c10FirstOut.rma.items) ∧
      out2.submitted =
        wasteItemsOf c10FirstOut.rma (destroyBodyEx.destructionMethod.getD "") 120 ∧
      out2.submitted.length =
        (c10FirstOut.rma.items.filter (fun i => truthyStr i.stateTrackingId)).length ∧
      (∀ w ∈ out2.submitted, w.destructionDate = 120)) :=
  c10_theorem rmaResolvedEx destroyBodyEx (MetrcOutcome.success ["MOCK-ADJ-0"] 99) 99
    c10FirstOut destroyBodyEx (MetrcOutcome.success ["MOCK-ADJ-1"] 120) 120
    (by decide) (by decide) (by decide)
